import Mathlib

/-!
# Verification of the label composition engine (`label_app.py`)

Shallow embedding of the core of the label generator: unit conversion,
font resolution with ordered fallback, the descending text-fitting search,
and the geometry of the two renderers (`render_copper_label`,
`render_fiber_label`).  Python float arithmetic on the decimal constants of
the source is modelled exactly over `Rat`; Python `int(...)` truncation
toward zero and Python-3 `round(...)` (round half to even) are made
explicit.  Drawing is modelled as the list of drawing / measuring
operations the renderers issue, in source order; text measurement
(`draw.textbbox`) is an abstract parameter `meas`, and the availability of
font files on disk is an abstract predicate `avail`.
-/

/-- Python `int(x)` on a real value: truncation toward zero. -/
def pyInt (q : Rat) : Int :=
  if 0 ≤ q then ⌊q⌋ else ⌈q⌉

/-- Python 3 `round(x)` on a real value: round half to even. -/
def pyRound (q : Rat) : Int :=
  if q - (⌊q⌋ : Rat) < 1/2 then ⌊q⌋
  else if 1/2 < q - (⌊q⌋ : Rat) then ⌊q⌋ + 1
  else if ⌊q⌋ % 2 = 0 then ⌊q⌋ else ⌊q⌋ + 1

/-- `cm_to_px(cm, dpi) = int(round((cm / 2.54) * dpi))`. -/
def cm_to_px (cm : Rat) (dpi : Nat) : Int :=
  pyRound ((cm / 2.54) * (dpi : Rat))

/-- `pt_to_px(pt, dpi) = int(round((pt * dpi) / 72.0))`. -/
def pt_to_px (pt : Rat) (dpi : Nat) : Int :=
  pyRound ((pt * (dpi : Rat)) / 72)

/-! ## Fonts (`load_font`) -/

/-- The result of `load_font`: either a TrueType font loaded from one of
the candidate paths at a definite pixel size, or PIL's built-in default
bitmap font (whose size is not controllable). -/
inductive FontRes where
  | truetype (path : String) (size : Int)
  | fallback
deriving DecidableEq

/-- The ordered candidate list from `load_font`. -/
def fontCandidates : List String :=
  [ "/usr/share/fonts/truetype/dejavu/DejaVuSans-Bold.ttf",
    "/usr/share/fonts/truetype/dejavu/DejaVuSans.ttf",
    "DejaVuSans-Bold.ttf",
    "DejaVuSans.ttf",
    "arial.ttf" ]

/-- `load_font(size_px)`: try the candidates in order, returning the first
that loads (`ImageFont.truetype(p, size=max(8, int(size_px)))`, every
failure caught and skipped); fall back to `ImageFont.load_default()` when
none loads.  `avail p` says whether `ImageFont.truetype(p, _)` succeeds. -/
def load_font (avail : String → Bool) (size_px : Int) : FontRes :=
  match fontCandidates.find? avail with
  | some p => .truetype p (max 8 size_px)
  | none => .fallback

/-! ## Text fitter (`fit_text`)

`fit_text` starts at `size = int(start_px)` and loops `while size >= 8`,
measuring the text with the font at the current size and returning at the
first size whose bounding box fits; after the loop it returns
`load_font(8)`.  `fitLoop` returns the chosen pixel size together with the
number of executed loop-body iterations; `meas s` is the measured bounding
box `(r - l, b - t)` of the text under the font at size `s`. -/

def fitLoop (meas : Int → Int × Int) (maxW maxH : Int) (size : Int) : Int × Nat :=
  if h : 8 ≤ size then
    if (meas size).1 ≤ maxW ∧ (meas size).2 ≤ maxH then (size, 1)
    else
      let r := fitLoop meas maxW maxH (size - 1)
      (r.1, r.2 + 1)
  else (8, 0)
termination_by (size - 7).toNat
decreasing_by omega

/-- The pixel size of the font returned by `fit_text`. -/
def fitSize (meas : Int → Int × Int) (maxW maxH startPx : Int) : Int :=
  (fitLoop meas maxW maxH startPx).1

/-- The number of loop-body iterations `fit_text` executes. -/
def fitSteps (meas : Int → Int × Int) (maxW maxH startPx : Int) : Nat :=
  (fitLoop meas maxW maxH startPx).2

/-- `fit_text` itself: the font it returns is `load_font` applied to the
size at which the search stopped (both the in-loop `return font` and the
final `return load_font(8)` have this shape). -/
def fit_text (avail : String → Bool) (meas : Int → Int × Int)
    (maxW maxH startPx : Int) : FontRes :=
  load_font avail (fitSize meas maxW maxH startPx)

/-! ## Design tokens and drawing operations -/

def RED : String := "#E43F6F"
def BLUE : String := "#008DD5"
def BORDER_COLOR : String := "#7a7a7a"
def PILL_OUTLINE : String := "#3a3a3a"

/-- `pill_radius(h) = max(8, int(0.46 * h))`. -/
def pill_radius (h : Int) : Int :=
  max 8 (pyInt (0.46 * (h : Rat)))

/-- One drawing / measuring operation issued by a renderer, in source
order: a rounded rectangle, an alpha-composited QR bitmap, an invocation
of the text fitter, or a centered text draw. -/
inductive Op where
  | rrect (x0 y0 x1 y1 radius : Int) (fill outline : Option String)
  | qrPaste (x y side : Int)
  | fitCall (s : String) (maxW maxH startPx : Int)
  | drawText (x y : Int) (s : String) (fontSize : Int)
deriving DecidableEq

/-- The pure geometry of an operation: its coordinates, with text content,
colors and the fitted font size erased. -/
def Op.geomKey : Op → Nat × Int × Int × Int × Int × Int
  | .rrect x0 y0 x1 y1 r _ _ => (0, x0, y0, x1, y1, r)
  | .qrPaste x y s => (1, x, y, s, 0, 0)
  | .fitCall _ w h s => (2, w, h, s, 0, 0)
  | .drawText x y _ _ => (3, x, y, 0, 0, 0)

def Op.isRRect : Op → Bool
  | .rrect .. => true
  | _ => false

def Op.isFitCall : Op → Bool
  | .fitCall .. => true
  | _ => false

def Op.isDrawText : Op → Bool
  | .drawText .. => true
  | _ => false

/-! ## `render_copper_label` geometry (2.5cm x 3.5cm portrait) -/

def copperW (dpi : Nat) : Int := cm_to_px 2.5 dpi
def copperH (dpi : Nat) : Int := cm_to_px 3.5 dpi
/-- `outer = int(0.06 * H)`. -/
def copperOuter (dpi : Nat) : Int := pyInt (0.06 * (copperH dpi : Rat))
/-- `gap = int(0.045 * H)`. -/
def copperGap (dpi : Nat) : Int := pyInt (0.045 * (copperH dpi : Rat))
/-- `bar_h = int(0.22 * H)`. -/
def copperBarH (dpi : Nat) : Int := pyInt (0.22 * (copperH dpi : Rat))
/-- `qr_zone_h = (H - 2*outer) - gap - bar_h`. -/
def copperQrZoneH (dpi : Nat) : Int :=
  (copperH dpi - 2 * copperOuter dpi) - copperGap dpi - copperBarH dpi
/-- `qr_side = min(W - 2*outer, qr_zone_h)`. -/
def copperQrSide (dpi : Nat) : Int :=
  min (copperW dpi - 2 * copperOuter dpi) (copperQrZoneH dpi)
def copperQrX (dpi : Nat) : Int :=
  copperOuter dpi + Int.fdiv ((copperW dpi - 2 * copperOuter dpi) - copperQrSide dpi) 2
def copperQrY (dpi : Nat) : Int :=
  copperOuter dpi + Int.fdiv (copperQrZoneH dpi - copperQrSide dpi) 2
def copperBarX0 (dpi : Nat) : Int := pyInt (0.12 * (copperW dpi : Rat))
def copperBarX1 (dpi : Nat) : Int := copperW dpi - pyInt (0.12 * (copperW dpi : Rat))
/-- `bar_y1 = H - outer`. -/
def copperBarY1 (dpi : Nat) : Int := copperH dpi - copperOuter dpi
/-- `bar_y0 = bar_y1 - bar_h`. -/
def copperBarY0 (dpi : Nat) : Int := copperBarY1 dpi - copperBarH dpi
/-- `max_w = (bar_x1 - bar_x0) - int(0.18 * W)`. -/
def copperMaxW (dpi : Nat) : Int :=
  (copperBarX1 dpi - copperBarX0 dpi) - pyInt (0.18 * (copperW dpi : Rat))
/-- `max_h = bar_h - int(0.25 * bar_h)`. -/
def copperMaxH (dpi : Nat) : Int :=
  copperBarH dpi - pyInt (0.25 * (copperBarH dpi : Rat))

/-- The operations issued by `render_copper_label`, in source order:
composite the QR, draw the bar, fit the link text, draw it centered. -/
def copperOps (meas : String → Int → Int × Int)
    (link_name qr_content bar_color : String) (dpi : Nat) (font_pt : Rat) :
    List Op :=
  let startPx := pt_to_px font_pt dpi
  [ Op.qrPaste (copperQrX dpi) (copperQrY dpi) (copperQrSide dpi),
    Op.rrect (copperBarX0 dpi) (copperBarY0 dpi) (copperBarX1 dpi) (copperBarY1 dpi)
      (pill_radius (copperBarH dpi)) (some bar_color) none,
    Op.fitCall link_name (copperMaxW dpi) (copperMaxH dpi) startPx,
    Op.drawText (Int.fdiv (copperBarX0 dpi + copperBarX1 dpi) 2)
      (Int.fdiv (copperBarY0 dpi + copperBarY1 dpi) 2) link_name
      (fitSize (meas link_name) (copperMaxW dpi) (copperMaxH dpi) startPx) ]

/-! ## `render_fiber_label` geometry (5.0cm x 3.5cm landscape) -/

def fiberW (dpi : Nat) : Int := cm_to_px 5.0 dpi
def fiberH (dpi : Nat) : Int := cm_to_px 3.5 dpi
/-- `stroke = max(2, int(0.012 * H))`. -/
def fiberStroke (dpi : Nat) : Int := max 2 (pyInt (0.012 * (fiberH dpi : Rat)))
/-- `inner_stroke = max(2, int(0.010 * H))`. -/
def fiberInnerStroke (dpi : Nat) : Int := max 2 (pyInt (0.010 * (fiberH dpi : Rat)))
def fiberOuter (dpi : Nat) : Int := pyInt (0.06 * (fiberH dpi : Rat))
def fiberGapMain (dpi : Nat) : Int := pyInt (0.045 * (fiberH dpi : Rat))
def fiberGapRect (dpi : Nat) : Int := pyInt (0.040 * (fiberH dpi : Rat))
def fiberOuterRadius (dpi : Nat) : Int := pyInt (0.10 * (fiberH dpi : Rat))
/-- `cx0 = outer + stroke` (and `cy0` likewise). -/
def fiberCx0 (dpi : Nat) : Int := fiberOuter dpi + fiberStroke dpi
def fiberCy0 (dpi : Nat) : Int := fiberOuter dpi + fiberStroke dpi
def fiberCx1 (dpi : Nat) : Int := fiberW dpi - fiberOuter dpi - fiberStroke dpi
def fiberCy1 (dpi : Nat) : Int := fiberH dpi - fiberOuter dpi - fiberStroke dpi
/-- `content_h = cy1 - cy0`, the usable height. -/
def fiberContentH (dpi : Nat) : Int := fiberCy1 dpi - fiberCy0 dpi
def fiberQrFramePad (dpi : Nat) : Int := pyInt (0.015 * (fiberH dpi : Rat))
def fiberQrFrameRadius (dpi : Nat) : Int := pyInt (0.09 * (fiberH dpi : Rat))
/-- `qr_side = content_h`: the QR square is as tall as the usable height. -/
def fiberQrSide (dpi : Nat) : Int := fiberContentH dpi
def fiberQrTarget (dpi : Nat) : Int :=
  fiberQrSide dpi - 2 * fiberQrFramePad dpi - fiberInnerStroke dpi
def fiberQrX (dpi : Nat) : Int :=
  fiberCx0 dpi + Int.fdiv (fiberQrSide dpi - fiberQrTarget dpi) 2
def fiberQrY (dpi : Nat) : Int :=
  fiberCy0 dpi + Int.fdiv (fiberContentH dpi - fiberQrTarget dpi) 2
def fiberInset (dpi : Nat) : Int := pyInt (0.02 * (fiberW dpi : Rat))
/-- `right_x0 = qr_frame_x1 + gap_main` then `right_x0 += inset`. -/
def fiberRightX0 (dpi : Nat) : Int :=
  (fiberCx0 dpi + fiberQrSide dpi) + fiberGapMain dpi + fiberInset dpi
/-- `right_x1 = cx1` then `right_x1 -= inset`. -/
def fiberRightX1 (dpi : Nat) : Int := fiberCx1 dpi - fiberInset dpi
/-- `right_w = max(1, right_x1 - right_x0)` (after the inset). -/
def fiberRightW (dpi : Nat) : Int := max 1 (fiberRightX1 dpi - fiberRightX0 dpi)
/-- `rect_h_ref = int((content_h - gap_rect * (ref_slots - 1)) / ref_slots)`
with `ref_slots = 6` (float division then `int`). -/
def fiberRectHRef (dpi : Nat) : Int :=
  pyInt (((fiberContentH dpi - fiberGapRect dpi * 5 : Int) : Rat) / 6)
/-- `rect_h = max(rect_h_ref, int(0.12 * H))`: the per-slot height, sized
against the 6-slot reference grid, independent of the actual item count. -/
def fiberRectH (dpi : Nat) : Int :=
  max (fiberRectHRef dpi) (pyInt (0.12 * (fiberH dpi : Rat)))
/-- `stack_h = n*rect_h + (n-1)*gap_rect` where `n = max(1, len(items))`. -/
def fiberStackH (dpi : Nat) (n : Nat) : Int :=
  (n : Int) * fiberRectH dpi + ((n : Int) - 1) * fiberGapRect dpi
/-- `start_y = cy0 + max(0, (content_h - stack_h) // 2)`. -/
def fiberStartY (dpi : Nat) (n : Nat) : Int :=
  fiberCy0 dpi + max 0 (Int.fdiv (fiberContentH dpi - fiberStackH dpi n) 2)
/-- `y0 = start_y + i * (rect_h + gap_rect)` for slot index `i`. -/
def fiberSlotY0 (dpi : Nat) (n : Nat) (i : Nat) : Int :=
  fiberStartY dpi n + (i : Int) * (fiberRectH dpi + fiberGapRect dpi)
def fiberSlotY1 (dpi : Nat) (n : Nat) (i : Nat) : Int :=
  fiberSlotY0 dpi n i + fiberRectH dpi
/-- `max_w = right_w - int(0.18 * right_w)`. -/
def fiberMaxW (dpi : Nat) : Int :=
  fiberRightW dpi - pyInt (0.18 * (fiberRightW dpi : Rat))
/-- `max_h = rect_h - int(0.30 * rect_h)`. -/
def fiberMaxH (dpi : Nat) : Int :=
  fiberRectH dpi - pyInt (0.30 * (fiberRectH dpi : Rat))
def fiberPillStroke (dpi : Nat) : Int := max 2 (pyInt (0.006 * (fiberH dpi : Rat)))
/-- Leftover space above the pill stack: `start_y - cy0`. -/
def fiberMarginAbove (dpi : Nat) (n : Nat) : Int :=
  fiberStartY dpi n - fiberCy0 dpi
/-- Leftover space below the pill stack: `cy1 - (start_y + stack_h)`. -/
def fiberMarginBelow (dpi : Nat) (n : Nat) : Int :=
  fiberCy1 dpi - (fiberStartY dpi n + fiberStackH dpi n)

/-- The per-slot loop body of `render_fiber_label`: for each `(txt, col)`
pair, unconditionally draw the pill, invoke `fit_text`, and draw the text
centered (the source has no blank-text guard).  `n` is `max(1, len(items))`
of the full list; `i` is the running index of `enumerate(items)`. -/
def fiberSlotOps (meas : String → Int → Int × Int) (dpi : Nat) (font_pt : Rat)
    (n : Nat) : Nat → List (String × String) → List Op
  | _, [] => []
  | i, (txt, col) :: rest =>
    Op.rrect (fiberRightX0 dpi) (fiberSlotY0 dpi n i) (fiberRightX1 dpi)
        (fiberSlotY1 dpi n i) (pill_radius (fiberRectH dpi)) (some col)
        (some PILL_OUTLINE) ::
    Op.fitCall txt (fiberMaxW dpi) (fiberMaxH dpi) (pt_to_px font_pt dpi) ::
    Op.drawText (Int.fdiv (fiberRightX0 dpi + fiberRightX1 dpi) 2)
        (Int.fdiv (fiberSlotY0 dpi n i + fiberSlotY1 dpi n i) 2) txt
        (fitSize (meas txt) (fiberMaxW dpi) (fiberMaxH dpi) (pt_to_px font_pt dpi)) ::
    fiberSlotOps meas dpi font_pt n (i + 1) rest

/-- The operations issued by `render_fiber_label`, in source order: outer
rounded border, QR frame, QR composite, then one pill / fit / text triple
per supplied item. -/
def fiberOps (meas : String → Int → Int × Int) (qr_content : String)
    (items : List (String × String)) (dpi : Nat) (font_pt : Rat) : List Op :=
  [ Op.rrect (fiberStroke dpi) (fiberStroke dpi) (fiberW dpi - fiberStroke dpi)
      (fiberH dpi - fiberStroke dpi) (fiberOuterRadius dpi) (some "white")
      (some BORDER_COLOR),
    Op.rrect (fiberCx0 dpi) (fiberCy0 dpi) (fiberCx0 dpi + fiberQrSide dpi)
      (fiberCy1 dpi) (fiberQrFrameRadius dpi) (some "white") (some BORDER_COLOR),
    Op.qrPaste (fiberQrX dpi) (fiberQrY dpi) (fiberQrTarget dpi) ]
  ++ fiberSlotOps meas dpi font_pt (max 1 items.length) 0 items

/-- The fitting condition of `fit_text` at size `t`:
`(r - l) <= max_w and (b - t) <= max_h`. -/
def fitsAt (meas : Int → Int × Int) (maxW maxH t : Int) : Prop :=
  (meas t).1 ≤ maxW ∧ (meas t).2 ≤ maxH

instance (meas : Int → Int × Int) (maxW maxH t : Int) :
    Decidable (fitsAt meas maxW maxH t) := by
  unfold fitsAt; infer_instance

/-! ## Helper lemmas: the fitter loop -/

theorem fitLoop_unfold (meas : Int → Int × Int) (maxW maxH size : Int) :
    fitLoop meas maxW maxH size =
      if 8 ≤ size then
        if (meas size).1 ≤ maxW ∧ (meas size).2 ≤ maxH then (size, 1)
        else ((fitLoop meas maxW maxH (size - 1)).1,
              (fitLoop meas maxW maxH (size - 1)).2 + 1)
      else (8, 0) := by
  rw [fitLoop]
  simp

theorem fitLoop_fst_ge (meas : Int → Int × Int) (maxW maxH size : Int) :
    8 ≤ (fitLoop meas maxW maxH size).1 := by
  induction size using fitLoop.induct meas maxW maxH with
  | case1 size h hfits => rw [fitLoop_unfold, if_pos h, if_pos hfits]; exact h
  | case2 size h hfits ih =>
      rw [fitLoop_unfold, if_pos h, if_neg hfits]; exact ih
  | case3 size h => rw [fitLoop_unfold, if_neg h]

theorem fitLoop_fst_le (meas : Int → Int × Int) (maxW maxH : Int) :
    ∀ size : Int, 8 ≤ size → (fitLoop meas maxW maxH size).1 ≤ size := by
  intro size
  induction size using fitLoop.induct meas maxW maxH with
  | case1 size h hfits => intro _; rw [fitLoop_unfold, if_pos h, if_pos hfits]
  | case2 size h hfits ih =>
      intro _
      rw [fitLoop_unfold, if_pos h, if_neg hfits]
      by_cases h7 : 8 ≤ size - 1
      · have := ih h7; simp only []; omega
      · have h8 : (fitLoop meas maxW maxH (size - 1)).1 = 8 := by
          rw [fitLoop_unfold, if_neg h7]
        simp only [h8]; omega
  | case3 size h => intro hs; omega

theorem fitLoop_below_floor (meas : Int → Int × Int) (maxW maxH size : Int)
    (h : size < 8) : fitLoop meas maxW maxH size = (8, 0) := by
  rw [fitLoop_unfold, if_neg (by omega)]

theorem fitLoop_not_fits_above (meas : Int → Int × Int) (maxW maxH : Int) :
    ∀ size t : Int, (fitLoop meas maxW maxH size).1 < t → t ≤ size →
      ¬ fitsAt meas maxW maxH t := by
  intro size
  induction size using fitLoop.induct meas maxW maxH with
  | case1 size h hfits =>
      intro t h1 h2
      rw [fitLoop_unfold, if_pos h, if_pos hfits] at h1
      simp only [] at h1; omega
  | case2 size h hfits ih =>
      intro t h1 h2
      rw [fitLoop_unfold, if_pos h, if_neg hfits] at h1
      simp only [] at h1
      rcases eq_or_lt_of_le h2 with rfl | hlt
      · exact fun hc => hfits hc
      · exact ih t h1 (by omega)
  | case3 size h =>
      intro t h1 h2
      rw [fitLoop_unfold, if_neg h] at h1
      simp only [] at h1; omega

theorem fitLoop_fits_or_floor (meas : Int → Int × Int) (maxW maxH : Int) :
    ∀ size : Int, fitsAt meas maxW maxH (fitLoop meas maxW maxH size).1 ∨
      (fitLoop meas maxW maxH size).1 = 8 := by
  intro size
  induction size using fitLoop.induct meas maxW maxH with
  | case1 size h hfits =>
      rw [fitLoop_unfold, if_pos h, if_pos hfits]; exact Or.inl hfits
  | case2 size h hfits ih =>
      rw [fitLoop_unfold, if_pos h, if_neg hfits]; exact ih
  | case3 size h => rw [fitLoop_unfold, if_neg h]; exact Or.inr rfl

theorem fitLoop_floor_of_none (meas : Int → Int × Int) (maxW maxH : Int) :
    ∀ size : Int,
      (∀ t : Int, 8 ≤ t → t ≤ size → ¬ fitsAt meas maxW maxH t) →
      (fitLoop meas maxW maxH size).1 = 8 := by
  intro size
  induction size using fitLoop.induct meas maxW maxH with
  | case1 size h hfits =>
      intro hnone
      exact absurd hfits (hnone size h le_rfl)
  | case2 size h hfits ih =>
      intro hnone
      rw [fitLoop_unfold, if_pos h, if_neg hfits]
      exact ih fun t ht1 ht2 => hnone t ht1 (by omega)
  | case3 size h =>
      intro _
      rw [fitLoop_unfold, if_neg h]

theorem fitLoop_steps_le (meas : Int → Int × Int) (maxW maxH : Int) :
    ∀ size : Int, ((fitLoop meas maxW maxH size).2 : Int) ≤ (size - 7).toNat := by
  intro size
  induction size using fitLoop.induct meas maxW maxH with
  | case1 size h hfits =>
      rw [fitLoop_unfold, if_pos h, if_pos hfits]
      simp only []; omega
  | case2 size h hfits ih =>
      rw [fitLoop_unfold, if_pos h, if_neg hfits]
      simp only []
      push_cast
      push_cast at ih
      omega
  | case3 size h =>
      rw [fitLoop_unfold, if_neg h]
      simp only []; omega

theorem fitSize_ge (meas : Int → Int × Int) (maxW maxH size : Int) :
    8 ≤ fitSize meas maxW maxH size :=
  fitLoop_fst_ge meas maxW maxH size

theorem fitSize_le (meas : Int → Int × Int) (maxW maxH size : Int)
    (h : 8 ≤ size) : fitSize meas maxW maxH size ≤ size :=
  fitLoop_fst_le meas maxW maxH size h

theorem fitSize_mono (meas : Int → Int × Int) (maxW maxH : Int) {s1 s2 : Int}
    (h : s1 ≤ s2) : fitSize meas maxW maxH s1 ≤ fitSize meas maxW maxH s2 := by
  by_cases h1 : 8 ≤ s1
  · rcases fitLoop_fits_or_floor meas maxW maxH s1 with hfit | hfl
    · by_contra hc
      push_neg at hc
      exact fitLoop_not_fits_above meas maxW maxH s2 (fitSize meas maxW maxH s1)
        hc (le_trans (fitSize_le meas maxW maxH s1 h1) h) hfit
    · rw [fitSize, hfl]
      exact fitSize_ge meas maxW maxH s2
  · rw [fitSize, fitLoop_below_floor meas maxW maxH s1 (by omega)]
    exact fitSize_ge meas maxW maxH s2

/-! ## Helper lemmas: ordered font fallback -/

theorem find?_first_idx {α : Type} (p : α → Bool) :
    ∀ (l : List α) (x : α), l.find? p = some x →
      ∃ i, l.get? i = some x ∧ p x = true ∧
        ∀ j, j < i → ∀ y, l.get? j = some y → p y = false := by
  intro l
  induction l with
  | nil => intro x h; simp [List.find?] at h
  | cons a as ih =>
      intro x h
      by_cases hpa : p a
      · rw [List.find?_cons_of_pos _ hpa] at h
        refine ⟨0, ?_, ?_, ?_⟩
        · simpa using h
        · cases h; exact hpa
        · intro j hj; omega
      · rw [List.find?_cons_of_neg _ hpa] at h
        obtain ⟨i, hget, hpx, hbefore⟩ := ih x h
        refine ⟨i + 1, by simpa using hget, hpx, ?_⟩
        intro j hj y hy
        cases j with
        | zero =>
            simp only [List.get?_cons_zero, Option.some.injEq] at hy
            subst hy
            exact Bool.eq_false_iff.mpr hpa
        | succ j' =>
            simp only [List.get?_cons_succ] at hy
            exact hbefore j' (by omega) y hy

/-! ## Helper lemmas: the fiber slot loop -/

theorem fiberSlotOps_mem (meas : String → Int → Int × Int) (dpi : Nat)
    (font_pt : Rat) (n : Nat) :
    ∀ (l : List (String × String)) (j i : Nat) (txt col : String),
      l.get? i = some (txt, col) →
      Op.rrect (fiberRightX0 dpi) (fiberSlotY0 dpi n (j + i)) (fiberRightX1 dpi)
          (fiberSlotY1 dpi n (j + i)) (pill_radius (fiberRectH dpi)) (some col)
          (some PILL_OUTLINE) ∈ fiberSlotOps meas dpi font_pt n j l ∧
      Op.fitCall txt (fiberMaxW dpi) (fiberMaxH dpi) (pt_to_px font_pt dpi) ∈
          fiberSlotOps meas dpi font_pt n j l ∧
      Op.drawText (Int.fdiv (fiberRightX0 dpi + fiberRightX1 dpi) 2)
          (Int.fdiv (fiberSlotY0 dpi n (j + i) + fiberSlotY1 dpi n (j + i)) 2) txt
          (fitSize (meas txt) (fiberMaxW dpi) (fiberMaxH dpi) (pt_to_px font_pt dpi)) ∈
          fiberSlotOps meas dpi font_pt n j l := by
  intro l
  induction l with
  | nil => intro j i txt col h; simp at h
  | cons hd rest ih =>
      intro j i txt col h
      obtain ⟨txt', col'⟩ := hd
      cases i with
      | zero =>
          simp only [List.get?_cons_zero, Option.some.injEq, Prod.mk.injEq] at h
          obtain ⟨rfl, rfl⟩ := h
          simp only [Nat.add_zero, fiberSlotOps]
          exact ⟨List.mem_cons_self _ _,
            List.mem_cons_of_mem _ (List.mem_cons_self _ _),
            List.mem_cons_of_mem _ (List.mem_cons_of_mem _ (List.mem_cons_self _ _))⟩
      | succ i' =>
          simp only [List.get?_cons_succ] at h
          have hidx : j + (i' + 1) = (j + 1) + i' := by omega
          rw [hidx]
          obtain ⟨h1, h2, h3⟩ := ih (j + 1) i' txt col h
          exact ⟨List.mem_cons_of_mem _ (List.mem_cons_of_mem _ (List.mem_cons_of_mem _ h1)),
            List.mem_cons_of_mem _ (List.mem_cons_of_mem _ (List.mem_cons_of_mem _ h2)),
            List.mem_cons_of_mem _ (List.mem_cons_of_mem _ (List.mem_cons_of_mem _ h3))⟩

theorem fiberSlotOps_counts (meas : String → Int → Int × Int) (dpi : Nat)
    (font_pt : Rat) (n : Nat) :
    ∀ (l : List (String × String)) (j : Nat),
      (fiberSlotOps meas dpi font_pt n j l).countP Op.isRRect = l.length ∧
      (fiberSlotOps meas dpi font_pt n j l).countP Op.isFitCall = l.length ∧
      (fiberSlotOps meas dpi font_pt n j l).countP Op.isDrawText = l.length := by
  intro l
  induction l with
  | nil => intro j; simp [fiberSlotOps]
  | cons hd rest ih =>
      intro j
      obtain ⟨txt, col⟩ := hd
      obtain ⟨h1, h2, h3⟩ := ih (j + 1)
      simp [fiberSlotOps, List.countP_cons, Op.isRRect, Op.isFitCall, Op.isDrawText,
        h1, h2, h3]

theorem fiberSlotOps_geom (meas meas' : String → Int → Int × Int) (dpi : Nat)
    (font_pt : Rat) (n : Nat) :
    ∀ (l l' : List (String × String)) (j : Nat), l.length = l'.length →
      (fiberSlotOps meas dpi font_pt n j l).map Op.geomKey =
      (fiberSlotOps meas' dpi font_pt n j l').map Op.geomKey := by
  intro l
  induction l with
  | nil =>
      intro l' j hlen
      cases l' with
      | nil => rfl
      | cons a as => simp at hlen
  | cons hd rest ih =>
      intro l' j hlen
      cases l' with
      | nil => simp at hlen
      | cons hd' rest' =>
          obtain ⟨txt, col⟩ := hd
          obtain ⟨txt', col'⟩ := hd'
          simp only [List.length_cons, Nat.add_right_cancel_iff] at hlen
          simp only [fiberSlotOps, List.map_cons, Op.geomKey]
          rw [ih rest' (j + 1) hlen]

/-! ## Helper lemmas: rounding -/

theorem floor_le_pyRound (q : Rat) : ⌊q⌋ ≤ pyRound q := by
  unfold pyRound
  split_ifs <;> omega

theorem pyRound_le_floor_add_one (q : Rat) : pyRound q ≤ ⌊q⌋ + 1 := by
  unfold pyRound
  split_ifs <;> omega

theorem pyRound_mono {q r : Rat} (h : q ≤ r) : pyRound q ≤ pyRound r := by
  have hf : (⌊q⌋ : Int) ≤ ⌊r⌋ := Int.floor_le_floor h
  rcases eq_or_lt_of_le hf with heq | hlt
  · have hfr : q - (⌊q⌋ : Rat) ≤ r - (⌊r⌋ : Rat) := by
      rw [← heq]; linarith
    unfold pyRound
    rw [← heq]
    split_ifs <;> first | omega | linarith
  · calc pyRound q ≤ ⌊q⌋ + 1 := pyRound_le_floor_add_one q
      _ ≤ ⌊r⌋ := by omega
      _ ≤ pyRound r := floor_le_pyRound r

/-! ## Concrete instances used in closed statements -/

/-- A concrete measurement function: text at size `u` measures `u` by `u`. -/
def measLinear : Int → Int × Int := fun u => (u, u)

/-! ## Claims -/

/-- C1: for the stacked-slot (fiber) family, the per-slot pixel height is
computed against the 6-slot reference grid and never depends on the actual
slot count (so a 3-slot render and a 6-slot render have exactly equal slot
heights), and at the DPI values the application offers (150/200/300) the
3-slot stack is vertically centered in the usable height, the leftover
margins above and below differing by at most 1 px. -/
theorem fiber_reference_grid_centering (dpi : Nat) :
    (∀ n m i j : Nat,
      fiberSlotY1 dpi n i - fiberSlotY0 dpi n i =
        fiberSlotY1 dpi m j - fiberSlotY0 dpi m j) ∧
    (dpi = 150 ∨ dpi = 200 ∨ dpi = 300 →
      (fiberMarginAbove dpi 3 - fiberMarginBelow dpi 3).natAbs ≤ 1) := by
  constructor
  · intro n m i j
    simp [fiberSlotY1]
  · intro hdpi
    rcases hdpi with rfl | rfl | rfl
    · have ha : fiberMarginAbove 150 3 = 45 := by
        norm_num [fiberMarginAbove, fiberStartY, fiberStackH, fiberRectH, fiberRectHRef,
          fiberContentH, fiberCy0, fiberCy1, fiberGapRect, fiberOuter, fiberStroke,
          fiberH, cm_to_px, pyRound, pyInt, Int.fdiv]
      have hb : fiberMarginBelow 150 3 = 46 := by
        norm_num [fiberMarginBelow, fiberStartY, fiberStackH, fiberRectH, fiberRectHRef,
          fiberContentH, fiberCy0, fiberCy1, fiberGapRect, fiberOuter, fiberStroke,
          fiberH, cm_to_px, pyRound, pyInt, Int.fdiv]
      rw [ha, hb]; decide
    · have ha : fiberMarginAbove 200 3 = 58 := by
        norm_num [fiberMarginAbove, fiberStartY, fiberStackH, fiberRectH, fiberRectHRef,
          fiberContentH, fiberCy0, fiberCy1, fiberGapRect, fiberOuter, fiberStroke,
          fiberH, cm_to_px, pyRound, pyInt, Int.fdiv]
      have hb : fiberMarginBelow 200 3 = 59 := by
        norm_num [fiberMarginBelow, fiberStartY, fiberStackH, fiberRectH, fiberRectHRef,
          fiberContentH, fiberCy0, fiberCy1, fiberGapRect, fiberOuter, fiberStroke,
          fiberH, cm_to_px, pyRound, pyInt, Int.fdiv]
      rw [ha, hb]; decide
    · have ha : fiberMarginAbove 300 3 = 89 := by
        norm_num [fiberMarginAbove, fiberStartY, fiberStackH, fiberRectH, fiberRectHRef,
          fiberContentH, fiberCy0, fiberCy1, fiberGapRect, fiberOuter, fiberStroke,
          fiberH, cm_to_px, pyRound, pyInt, Int.fdiv]
      have hb : fiberMarginBelow 300 3 = 89 := by
        norm_num [fiberMarginBelow, fiberStartY, fiberStackH, fiberRectH, fiberRectHRef,
          fiberContentH, fiberCy0, fiberCy1, fiberGapRect, fiberOuter, fiberStroke,
          fiberH, cm_to_px, pyRound, pyInt, Int.fdiv]
      rw [ha, hb]; decide

/-- Witness for C1 at dpi = 300. -/
theorem fiber_reference_grid_centering_witness :
    ((300 : Nat) = 150 ∨ (300 : Nat) = 200 ∨ (300 : Nat) = 300) ∧
    ((∀ n m i j : Nat,
        fiberSlotY1 300 n i - fiberSlotY0 300 n i =
          fiberSlotY1 300 m j - fiberSlotY0 300 m j) ∧
      (fiberMarginAbove 300 3 - fiberMarginBelow 300 3).natAbs ≤ 1) :=
  ⟨by decide,
   (fiber_reference_grid_centering 300).1,
   (fiber_reference_grid_centering 300).2 (by decide)⟩

/-- C2: for every measurement function, box and start size at or above the
floor (8 px), the fitter's result is between the floor and the start size,
no strictly larger size up to the start fits (so the result is the first
size tried, in descending order, that fits), the result either fits or is
the floor, the floor is returned unconditionally when nothing fits, the
returned font is `load_font` at the result size, and the loop body runs at
most `start - floor + 1` times. -/
theorem fit_text_descending_search (avail : String → Bool)
    (meas : Int → Int × Int) (maxW maxH s : Int) (h8 : 8 ≤ s) :
    8 ≤ fitSize meas maxW maxH s ∧
    fitSize meas maxW maxH s ≤ s ∧
    (∀ t, fitSize meas maxW maxH s < t → t ≤ s → ¬ fitsAt meas maxW maxH t) ∧
    (fitsAt meas maxW maxH (fitSize meas maxW maxH s) ∨
      fitSize meas maxW maxH s = 8) ∧
    ((∀ t, 8 ≤ t → t ≤ s → ¬ fitsAt meas maxW maxH t) →
      fitSize meas maxW maxH s = 8) ∧
    fit_text avail meas maxW maxH s =
      load_font avail (fitSize meas maxW maxH s) ∧
    (fitSteps meas maxW maxH s : Int) ≤ s - 8 + 1 := by
  refine ⟨fitSize_ge meas maxW maxH s, fitSize_le meas maxW maxH s h8,
    fitLoop_not_fits_above meas maxW maxH s,
    fitLoop_fits_or_floor meas maxW maxH s,
    fitLoop_floor_of_none meas maxW maxH s, rfl, ?_⟩
  have := fitLoop_steps_le meas maxW maxH s
  unfold fitSteps
  omega

/-- Witness for C2 with a linear measurement, a 10 by 10 box and start 12. -/
theorem fit_text_descending_search_witness :
    ((8 : Int) ≤ 12) ∧
    (8 ≤ fitSize measLinear 10 10 12 ∧
     fitSize measLinear 10 10 12 ≤ 12 ∧
     (∀ t, fitSize measLinear 10 10 12 < t → t ≤ 12 → ¬ fitsAt measLinear 10 10 t) ∧
     (fitsAt measLinear 10 10 (fitSize measLinear 10 10 12) ∨
       fitSize measLinear 10 10 12 = 8) ∧
     ((∀ t, 8 ≤ t → t ≤ 12 → ¬ fitsAt measLinear 10 10 t) →
       fitSize measLinear 10 10 12 = 8) ∧
     fit_text (fun _ => true) measLinear 10 10 12 =
       load_font (fun _ => true) (fitSize measLinear 10 10 12) ∧
     (fitSteps measLinear 10 10 12 : Int) ≤ 12 - 8 + 1) :=
  ⟨by decide, fit_text_descending_search (fun _ => true) measLinear 10 10 12 (by decide)⟩

/-- C3 (counterexample): in a 6-slot fiber render at dpi 300 whose first
slot has the empty string as text, the Text Fitter IS invoked on the empty
string — the operation trace contains a fitter call for that slot, so the
claim that a blank slot never invokes the fitter is false. -/
theorem empty_slot_fitter_invoked_cex :
    Op.fitCall "" (fiberMaxW 300) (fiberMaxH 300) (pt_to_px 10 300) ∈
      fiberOps (fun _ u => (u, u)) "payload"
        [("", RED), ("2L98.2", RED), ("2L98.3", BLUE), ("2L98.4", BLUE),
         ("2L100.1", RED), ("2L100.2", RED)] 300 10 := by
  unfold fiberOps
  exact List.mem_append_right _
    ((fiberSlotOps_mem (fun _ u => (u, u)) 300 10
      (max 1 ([("", RED), ("2L98.2", RED), ("2L98.3", BLUE), ("2L98.4", BLUE),
        ("2L100.1", RED), ("2L100.2", RED)] : List (String × String)).length)
      [("", RED), ("2L98.2", RED), ("2L98.3", BLUE), ("2L98.4", BLUE),
        ("2L100.1", RED), ("2L100.2", RED)] 0 0 "" RED rfl).2.1)

/-- C3 (amended): for every slot of a fiber render — including slots whose
text is the empty string — the pill fill is drawn AND the Text Fitter is
invoked on the slot's text AND a centered text-draw call is issued; the
source has no blank-text guard (an empty string simply measures and draws
as nothing). -/
theorem fiber_blank_slot_calls_unconditional (meas : String → Int → Int × Int)
    (qr : String) (items : List (String × String)) (dpi : Nat) (font_pt : Rat)
    (i : Nat) (txt col : String) (h : items.get? i = some (txt, col)) :
    Op.rrect (fiberRightX0 dpi) (fiberSlotY0 dpi (max 1 items.length) i)
        (fiberRightX1 dpi) (fiberSlotY1 dpi (max 1 items.length) i)
        (pill_radius (fiberRectH dpi)) (some col) (some PILL_OUTLINE) ∈
      fiberOps meas qr items dpi font_pt ∧
    Op.fitCall txt (fiberMaxW dpi) (fiberMaxH dpi) (pt_to_px font_pt dpi) ∈
      fiberOps meas qr items dpi font_pt ∧
    Op.drawText (Int.fdiv (fiberRightX0 dpi + fiberRightX1 dpi) 2)
        (Int.fdiv (fiberSlotY0 dpi (max 1 items.length) i +
          fiberSlotY1 dpi (max 1 items.length) i) 2) txt
        (fitSize (meas txt) (fiberMaxW dpi) (fiberMaxH dpi) (pt_to_px font_pt dpi)) ∈
      fiberOps meas qr items dpi font_pt := by
  have hm := fiberSlotOps_mem meas dpi font_pt (max 1 items.length) items 0 i txt col h
  simp only [Nat.zero_add] at hm
  unfold fiberOps
  exact ⟨List.mem_append_right _ hm.1, List.mem_append_right _ hm.2.1,
    List.mem_append_right _ hm.2.2⟩

/-- Witness for C3's amended claim: a single blank slot at dpi 300. -/
theorem fiber_blank_slot_calls_unconditional_witness :
    (([("", RED)] : List (String × String)).get? 0 = some ("", RED)) ∧
    (Op.rrect (fiberRightX0 300) (fiberSlotY0 300 (max 1 ([("", RED)] : List (String × String)).length) 0)
        (fiberRightX1 300) (fiberSlotY1 300 (max 1 ([("", RED)] : List (String × String)).length) 0)
        (pill_radius (fiberRectH 300)) (some RED) (some PILL_OUTLINE) ∈
      fiberOps (fun _ u => (u, u)) "q" [("", RED)] 300 10 ∧
    Op.fitCall "" (fiberMaxW 300) (fiberMaxH 300) (pt_to_px 10 300) ∈
      fiberOps (fun _ u => (u, u)) "q" [("", RED)] 300 10 ∧
    Op.drawText (Int.fdiv (fiberRightX0 300 + fiberRightX1 300) 2)
        (Int.fdiv (fiberSlotY0 300 (max 1 ([("", RED)] : List (String × String)).length) 0 +
          fiberSlotY1 300 (max 1 ([("", RED)] : List (String × String)).length) 0) 2) ""
        (fitSize ((fun _ u => (u, u)) "") (fiberMaxW 300) (fiberMaxH 300) (pt_to_px 10 300)) ∈
      fiberOps (fun _ u => (u, u)) "q" [("", RED)] 300 10) :=
  ⟨rfl, fiber_blank_slot_calls_unconditional (fun _ u => (u, u)) "q" [("", RED)] 300 10
    0 "" RED rfl⟩

/-- C4 (counterexample): supplying 2 (text, color) pairs to the fiber
renderer (whose smaller template expects 3 slots) is not rejected: the
render proceeds and draws 4 rounded rectangles (outer border, QR frame and
one pill per supplied pair) and issues 2 fitter calls, so drawing occurs
instead of a failure. -/
theorem slot_count_mismatch_draws_cex :
    (fiberOps (fun _ u => (u, u)) "payload" [("2L98.1", RED), ("2L98.2", BLUE)]
        300 10).countP Op.isRRect = 4 ∧
    (fiberOps (fun _ u => (u, u)) "payload" [("2L98.1", RED), ("2L98.2", BLUE)]
        300 10).countP Op.isFitCall = 2 := by
  constructor <;>
    simp [fiberOps, fiberSlotOps, List.countP_cons, List.countP_append, List.countP_nil,
      Op.isRRect, Op.isFitCall]

/-- C4 (amended): the fiber renderer performs no slot-count validation at
all: whatever list of (text, color) pairs is supplied, it draws exactly one
pill, one fitter call and one text draw per supplied pair (plus the two
fixed border rectangles), neither truncating nor padding to a template
count. -/
theorem fiber_no_slot_count_validation (meas : String → Int → Int × Int)
    (qr : String) (items : List (String × String)) (dpi : Nat) (font_pt : Rat) :
    (fiberOps meas qr items dpi font_pt).countP Op.isRRect = 2 + items.length ∧
    (fiberOps meas qr items dpi font_pt).countP Op.isFitCall = items.length ∧
    (fiberOps meas qr items dpi font_pt).countP Op.isDrawText = items.length := by
  obtain ⟨h1, h2, h3⟩ := fiberSlotOps_counts meas dpi font_pt (max 1 items.length) items 0
  unfold fiberOps
  simp [List.countP_append, List.countP_cons, Op.isRRect, Op.isFitCall, Op.isDrawText,
    h1, h2, h3]
  omega

/-- C5: `cm_to_px` and `pt_to_px` are total and compute exactly
`round(cm / 2.54 * dpi)` and `round(pt * dpi / 72)`; `cm_to_px` is
non-decreasing in dpi for a fixed positive length; and at 300 dpi a length
of 2.5 cm converts to 295 px. -/
theorem unit_conversion_contract (cm pt : Rat) (dpi d1 d2 : Nat)
    (hcm : 0 < cm) (hd : d1 ≤ d2) :
    cm_to_px cm dpi = pyRound (cm / 2.54 * (dpi : Rat)) ∧
    pt_to_px pt dpi = pyRound (pt * (dpi : Rat) / 72) ∧
    cm_to_px cm d1 ≤ cm_to_px cm d2 ∧
    cm_to_px 2.5 300 = 295 := by
  refine ⟨rfl, rfl, ?_, ?_⟩
  · apply pyRound_mono
    apply mul_le_mul_of_nonneg_left
    · exact_mod_cast Nat.cast_le.mpr hd
    · positivity
  · norm_num [cm_to_px, pyRound]

/-- Witness for C5 at cm = 1, d1 = 150, d2 = 300. -/
theorem unit_conversion_contract_witness :
    ((0 : Rat) < 1 ∧ (150 : Nat) ≤ 300) ∧
    (cm_to_px 1 300 = pyRound ((1 : Rat) / 2.54 * ((300 : Nat) : Rat)) ∧
     pt_to_px 1 300 = pyRound ((1 : Rat) * ((300 : Nat) : Rat) / 72) ∧
     cm_to_px 1 150 ≤ cm_to_px 1 300 ∧
     cm_to_px 2.5 300 = 295) :=
  ⟨⟨one_pos, by decide⟩, unit_conversion_contract 1 1 300 150 300 one_pos (by decide)⟩

/-- C6: for a fixed measurement function and box, the size chosen by the
fitter is monotone in the start size, and (for starts at or above the 8 px
floor) the chosen size always lies between the floor and the start. -/
theorem fit_size_monotone_in_start (meas : Int → Int × Int)
    (maxW maxH s1 s2 : Int) (h12 : s1 ≤ s2) (h8 : 8 ≤ s1) :
    fitSize meas maxW maxH s1 ≤ fitSize meas maxW maxH s2 ∧
    8 ≤ fitSize meas maxW maxH s1 ∧ fitSize meas maxW maxH s1 ≤ s1 ∧
    8 ≤ fitSize meas maxW maxH s2 ∧ fitSize meas maxW maxH s2 ≤ s2 :=
  ⟨fitSize_mono meas maxW maxH h12, fitSize_ge meas maxW maxH s1,
    fitSize_le meas maxW maxH s1 h8, fitSize_ge meas maxW maxH s2,
    fitSize_le meas maxW maxH s2 (le_trans h8 h12)⟩

/-- Witness for C6 with starts 9 and 12 on a 10 by 10 box. -/
theorem fit_size_monotone_in_start_witness :
    ((9 : Int) ≤ 12 ∧ (8 : Int) ≤ 9) ∧
    (fitSize measLinear 10 10 9 ≤ fitSize measLinear 10 10 12 ∧
     8 ≤ fitSize measLinear 10 10 9 ∧ fitSize measLinear 10 10 9 ≤ 9 ∧
     8 ≤ fitSize measLinear 10 10 12 ∧ fitSize measLinear 10 10 12 ≤ 12) :=
  ⟨⟨by decide, by decide⟩,
    fit_size_monotone_in_start measLinear 10 10 9 12 (by decide) (by decide)⟩

/-- C7: the copper (single-code-with-bar) label at 300 dpi has canvas
pixel size exactly 295 by 413 (2.5 cm by 3.5 cm rounded), the bar height
is `int(0.22 * H)` = 90 px, and the bar's bottom edge sits at `H - outer`
= 389 px (its top at 299 px). -/
theorem copper_canvas_and_bar_geometry :
    copperW 300 = 295 ∧ copperH 300 = 413 ∧
    copperBarH 300 = pyInt (0.22 * (copperH 300 : Rat)) ∧
    copperBarY1 300 = copperH 300 - copperOuter 300 ∧
    copperBarH 300 = 90 ∧ copperBarY0 300 = 299 ∧ copperBarY1 300 = 389 := by
  refine ⟨?_, ?_, rfl, rfl, ?_, ?_, ?_⟩
  · norm_num [copperW, cm_to_px, pyRound]
  · norm_num [copperH, cm_to_px, pyRound]
  · norm_num [copperBarH, copperH, cm_to_px, pyRound, pyInt]
  · norm_num [copperBarY0, copperBarY1, copperBarH, copperOuter, copperH,
      cm_to_px, pyRound, pyInt]
  · norm_num [copperBarY1, copperOuter, copperH, cm_to_px, pyRound, pyInt]

/-- C8 (counterexample): with every candidate available, a requested pixel
size of 5 (which is ≥ 1) loads the first candidate at size 8, not at the
requested size 5 — the "at the requested size" part of the claim fails
below the 8 px clamp. -/
theorem load_font_clamps_small_sizes_cex :
    load_font (fun _ => true) 5 =
      FontRes.truetype "/usr/share/fonts/truetype/dejavu/DejaVuSans-Bold.ttf" 8 ∧
    ¬ ((8 : Int) = 5) :=
  ⟨rfl, by decide⟩

/-- C8 (amended): for every availability environment and requested size
≥ 1, `load_font` returns the built-in fallback exactly when no candidate
loads, and otherwise returns the first candidate (in list order) that
loads, at pixel size `max(8, requested)`; it is a total function, so no
failure is ever surfaced to the caller. -/
theorem load_font_ordered_fallback (avail : String → Bool) (s : Int)
    (h1 : 1 ≤ s) :
    (load_font avail s = FontRes.fallback ↔
      ∀ p ∈ fontCandidates, avail p = false) ∧
    (∀ p sz, load_font avail s = FontRes.truetype p sz →
      sz = max 8 s ∧
      ∃ i, fontCandidates.get? i = some p ∧ avail p = true ∧
        ∀ j, j < i → ∀ q, fontCandidates.get? j = some q → avail q = false) := by
  constructor
  · constructor
    · intro h p hp
      unfold load_font at h
      cases hf : fontCandidates.find? avail with
      | none =>
          have := List.find?_eq_none.mp hf p hp
          simpa using this
      | some q => rw [hf] at h; simp at h
    · intro hall
      unfold load_font
      have hnone : fontCandidates.find? avail = none := by
        rw [List.find?_eq_none]
        intro p hp
        simp [hall p hp]
      rw [hnone]
  · intro p sz h
    unfold load_font at h
    cases hf : fontCandidates.find? avail with
    | none => rw [hf] at h; simp at h
    | some q =>
        rw [hf] at h
        simp only [FontRes.truetype.injEq] at h
        obtain ⟨hqp, hsz⟩ := h
        refine ⟨hsz.symm, ?_⟩
        rw [← hqp]
        obtain ⟨i, hget, hpq, hbefore⟩ := find?_first_idx avail fontCandidates q hf
        exact ⟨i, hget, hpq, hbefore⟩

/-- Witness for C8's amended claim: all candidates available, size 10. -/
theorem load_font_ordered_fallback_witness :
    ((1 : Int) ≤ 10) ∧
    (load_font (fun _ => true) 10 = FontRes.fallback ↔
      ∀ p ∈ fontCandidates, (fun _ : String => true) p = false) :=
  ⟨by decide, (load_font_ordered_fallback (fun _ => true) 10 (by decide)).1⟩

/-- C9: the computed geometry is a deterministic pure function of its
inputs — in fact, of the dpi and the slot count alone: two fiber renders
with the same dpi, font size and number of slots (but any payloads, texts,
colors and font metrics) issue operation traces with identical geometry,
and likewise two copper renders with the same dpi and font size; in
particular two renders of identical inputs agree exactly. -/
theorem render_geometry_pure_function (meas meas' : String → Int → Int × Int)
    (qr qr' link link' colr colr' : String) (items items' : List (String × String))
    (dpi : Nat) (font_pt : Rat) (hlen : items.length = items'.length) :
    (fiberOps meas qr items dpi font_pt).map Op.geomKey =
      (fiberOps meas' qr' items' dpi font_pt).map Op.geomKey ∧
    (copperOps meas link qr colr dpi font_pt).map Op.geomKey =
      (copperOps meas' link' qr' colr' dpi font_pt).map Op.geomKey := by
  constructor
  · unfold fiberOps
    rw [List.map_append, List.map_append, hlen]
    rw [fiberSlotOps_geom meas meas' dpi font_pt (max 1 items'.length) items items' 0 hlen]
  · simp [copperOps, Op.geomKey]

/-- Witness for C9: two single-slot renders differing in every
content-bearing input. -/
theorem render_geometry_pure_function_witness :
    (([("A", RED)] : List (String × String)).length =
      ([("B", BLUE)] : List (String × String)).length) ∧
    ((fiberOps (fun _ u => (u, u)) "q1" [("A", RED)] 300 10).map Op.geomKey =
       (fiberOps (fun _ u => (u, 2 * u)) "q2" [("B", BLUE)] 300 10).map Op.geomKey ∧
     (copperOps (fun _ u => (u, u)) "A" "q1" RED 300 10).map Op.geomKey =
       (copperOps (fun _ u => (u, 2 * u)) "B" "q2" BLUE 300 10).map Op.geomKey) :=
  ⟨rfl, render_geometry_pure_function (fun _ u => (u, u)) (fun _ u => (u, 2 * u))
    "q1" "q2" "A" "B" RED BLUE [("A", RED)] [("B", BLUE)] 300 10 rfl⟩

/-- C10: `load_font` clamps every requested size to a hard minimum of 8
(a TrueType font is always loaded at `max(8, requested)`, never below 8);
consequently, when the fitter is started below 8 its loop body never runs
(0 iterations) and it returns the 8 px floor font, whose size exceeds the
requested start. -/
theorem font_floor_clamp_invariant (avail : String → Bool)
    (meas : Int → Int × Int) (maxW maxH s : Int) :
    (∀ p sz, load_font avail s = FontRes.truetype p sz →
      sz = max 8 s ∧ 8 ≤ sz) ∧
    (s < 8 →
      fitSteps meas maxW maxH s = 0 ∧
      fitSize meas maxW maxH s = 8 ∧
      s < fitSize meas maxW maxH s ∧
      fit_text avail meas maxW maxH s = load_font avail 8) := by
  constructor
  · intro p sz h
    unfold load_font at h
    cases hf : fontCandidates.find? avail with
    | none => rw [hf] at h; simp at h
    | some q =>
        rw [hf] at h
        simp only [FontRes.truetype.injEq] at h
        refine ⟨h.2.symm, ?_⟩
        rw [← h.2]
        exact le_max_left _ _
  · intro hs
    have hl := fitLoop_below_floor meas maxW maxH s hs
    refine ⟨?_, ?_, ?_, ?_⟩
    · unfold fitSteps; rw [hl]
    · unfold fitSize; rw [hl]
    · unfold fitSize; rw [hl]; exact hs
    · unfold fit_text fitSize; rw [hl]

/-- Witness for C10: all candidates available, start size 5. -/
theorem font_floor_clamp_invariant_witness :
    (load_font (fun _ => true) 5 =
        FontRes.truetype "/usr/share/fonts/truetype/dejavu/DejaVuSans-Bold.ttf" 8 ∧
      (5 : Int) < 8) ∧
    (((8 : Int) = max 8 5 ∧ (8 : Int) ≤ 8) ∧
      (fitSteps measLinear 10 10 5 = 0 ∧ fitSize measLinear 10 10 5 = 8 ∧
       (5 : Int) < fitSize measLinear 10 10 5 ∧
       fit_text (fun _ => true) measLinear 10 10 5 =
         load_font (fun _ => true) 8)) :=
  ⟨⟨rfl, by decide⟩,
   ⟨(font_floor_clamp_invariant (fun _ => true) measLinear 10 10 5).1 _ _ rfl,
    (font_floor_clamp_invariant (fun _ => true) measLinear 10 10 5).2 (by decide)⟩⟩

/-- C1 (counterexample): at dpi = 1 the usable height is negative (-3) and
the `max(0, ...)` clamp in `start_y` leaves the 3-slot stack with margins
0 above and -3 below, which differ by 3 px — so "for every dpi" the
equal-margin centering claim is false; it holds at the DPI values the
application offers (see the amended theorem). -/
theorem fiber_centering_fails_at_dpi_one_cex :
    ¬ ((fiberMarginAbove 1 3 - fiberMarginBelow 1 3).natAbs ≤ 1) := by
  have hH : fiberH 1 = 1 := by norm_num [fiberH, cm_to_px, pyRound]
  have hstroke : fiberStroke 1 = 2 := by norm_num [fiberStroke, pyInt, hH]
  have houter : fiberOuter 1 = 0 := by norm_num [fiberOuter, pyInt, hH]
  have hgr : fiberGapRect 1 = 0 := by norm_num [fiberGapRect, pyInt, hH]
  have hch : fiberContentH 1 = -3 := by
    norm_num [fiberContentH, fiberCy0, fiberCy1, houter, hstroke, hH]
  have href : fiberRectHRef 1 = 0 := by norm_num [fiberRectHRef, hch, hgr, pyInt]
  have hrh : fiberRectH 1 = 0 := by norm_num [fiberRectH, href, pyInt, hH]
  have hsh : fiberStackH 1 3 = 0 := by norm_num [fiberStackH, hrh, hgr]
  have hfd : Int.fdiv (-3 - 0 : Int) 2 = -2 := by decide
  simp only [fiberMarginAbove, fiberMarginBelow, fiberStartY, fiberCy0, fiberCy1,
    hch, hsh, houter, hstroke, hH, hfd]
  omega
